import Mathlib

/-
Verification of the connection/session/message lifecycle manager of the
speicher-chatbot repository, a shallow embedding of
src/lib/socket-client.ts and of the relevant listener code in
src/components/LiveChat.tsx.

The asynchronous callback code is embedded as pure functions driven by
explicit schedules: each network acknowledgment or per-attempt timeout is
an element of a list of attempt outcomes, and wall-clock instants are
natural numbers of milliseconds since the start of the operation.
-/

namespace SpeicherChat

/-- SocketError, from socket-client.ts lines 4-8. -/
structure SocketError where
  message : String
  code : Option String
  timestamp : String
deriving Repr, DecidableEq

/-- ConnectionState, from socket-client.ts lines 10-15. -/
structure ConnectionState where
  isConnected : Bool
  isConnecting : Bool
  lastError : Option SocketError
  reconnectAttempts : Nat
deriving Repr, DecidableEq

/-- Initial value of the connectionState field, socket-client.ts lines 22-27. -/
def initialConnectionState : ConnectionState :=
  { isConnected := false
    isConnecting := false
    lastError := none
    reconnectAttempts := 0 }

/-- QuestionAnswerPair, from the shared types used by ChatSession. -/
structure QuestionAnswerPair where
  id : String
  conversationId : String
  question : String
  answer : String
  stepId : String
  createdAt : String
deriving Repr, DecidableEq

/-- ChatSession payload (the Omit ChatSession underscore-id shape used by the client). -/
structure ChatSession where
  id : String
  userId : String
  userEmail : String
  userName : String
  status : String
  createdAt : String
  updatedAt : String
  initialMessage : String
  questionAnswerPairs : List QuestionAnswerPair
deriving Repr, DecidableEq

/-- ChatMessage payload (the Omit ChatMessage underscore-id shape used by the client).
The failed flag is the UI-side marker set by LiveChat.tsx lines 192-196. -/
structure ChatMessage where
  id : String
  sessionId : String
  sender : String
  message : String
  createdAt : String
  failed : Bool := false
deriving Repr, DecidableEq

/-- A physical socket.io connection object: its identity (sid, distinguishing
distinct connection objects created by io() with forceNew) and its connected flag. -/
structure SocketConn where
  connected : Bool
  sid : Nat
deriving Repr, DecidableEq

/-- The mutable state of the SocketClient class, socket-client.ts lines 17-30.
The resolve and reject callbacks of a queue entry are not data, so a queue entry
is represented by its messageData; inFlight is the entry that
processMessageQueue has already shifted out of the queue (socket-client.ts
line 252) and whose sendMessageInternal promise is still pending. -/
structure SocketClientState where
  socket : Option SocketConn
  sessionId : Option String
  messageQueue : List ChatMessage
  isProcessingQueue : Bool
  inFlight : Option ChatMessage
  connectionState : ConnectionState
  connectionListeners : List Nat
deriving Repr, DecidableEq

/-- The state of a freshly constructed SocketClient. -/
def initialClient : SocketClientState :=
  { socket := none
    sessionId := none
    messageQueue := []
    isProcessingQueue := false
    inFlight := none
    connectionState := initialConnectionState
    connectionListeners := [] }

/-- Result of a sendMessage call at the moment it returns: the promise is
either rejected synchronously or the message is enqueued (socket-client.ts
lines 231-242). -/
inductive SendCall where
  | rejectedNow (e : String)
  | enqueued
deriving Repr, DecidableEq

/-- The sendMessage entry point, socket-client.ts lines 231-242: rejects
without touching the queue when there is no socket or the connection state is
not connected; otherwise appends to the message queue and triggers queue
processing. The third component lists the wire emissions performed
synchronously by the call: none on the reject path; on the enqueue path,
processMessageQueue synchronously starts the first delivery attempt when the
queue was idle. -/
def sendMessage (c : SocketClientState) (m : ChatMessage) :
    SocketClientState × SendCall × List String :=
  if c.socket.isNone || !c.connectionState.isConnected then
    (c, SendCall.rejectedNow "Cannot send message: Not connected to server", [])
  else
    ({ c with messageQueue := c.messageQueue ++ [m] }, SendCall.enqueued,
      if c.isProcessingQueue then [] else ["send-message"])

/-- The connect method, socket-client.ts lines 32-66: if a socket exists and
is connected, it is returned unchanged with no state update and no emission;
otherwise the connection state is merged with isConnecting true and lastError
null and a fresh, not yet connected socket object is created. The io() call
itself emits nothing; register-client is emitted by the connect event handler. -/
def connect (c : SocketClientState) (fresh : SocketConn) :
    SocketClientState × SocketConn × List String :=
  match c.socket with
  | some s =>
    if s.connected then (c, s, [])
    else
      ({ c with
          socket := some { fresh with connected := false }
          connectionState :=
            { c.connectionState with isConnecting := true, lastError := none } },
        { fresh with connected := false }, [])
  | none =>
      ({ c with
          socket := some { fresh with connected := false }
          connectionState :=
            { c.connectionState with isConnecting := true, lastError := none } },
        { fresh with connected := false }, [])

/-- Handler of the connect transport event, socket-client.ts lines 55-66:
sets the full connected state and emits register-client once (the emit is
guarded by the optional chaining on this.socket). -/
def handleConnectEvent (c : SocketClientState) : SocketClientState × List String :=
  ({ c with
      socket := c.socket.map (fun s => { s with connected := true })
      connectionState :=
        { isConnected := true, isConnecting := false, lastError := none,
          reconnectAttempts := 0 } },
    if c.socket.isSome then ["register-client"] else [])

/-- The disconnect method, socket-client.ts lines 361-380: tears down the
socket, resets the connection state to its initial values, rejects every
entry still in the message queue with the Connection closed error and clears
the queue. The entry already shifted out by processMessageQueue (inFlight) is
not in the queue, so its reject callback is not invoked here. The second
component is the list of rejections performed, in queue order. -/
def disconnect (c : SocketClientState) : SocketClientState × List (ChatMessage × String) :=
  let c1 := if c.socket.isSome then { c with socket := none, sessionId := none } else c
  let c2 := { c1 with connectionState := initialConnectionState }
  ({ c2 with messageQueue := [] },
    c.messageQueue.map (fun m => (m, "Connection closed")))

/-- Outcome of one delivery attempt of sendMessageInternal, socket-client.ts
lines 283-316: the acknowledgment callback runs with a response that is
successful and carries the server copy of the message, successful without a
message field, or a failure (optionally carrying a server error string); or
the 10 second per-attempt timer fires first. -/
inductive AttemptOutcome where
  | ackSuccess (serverMessage : ChatMessage)
  | ackSuccessNoMessage
  | ackFailure (err : Option String)
  | timeout
deriving Repr, DecidableEq

/-- Settlement state of a promise driven by a finite schedule of attempt
outcomes: resolved with a value, rejected with an error string, or still
pending because the schedule ran out. -/
inductive SendResult where
  | resolved (m : ChatMessage)
  | rejected (e : String)
  | pending
deriving Repr, DecidableEq

/-- The messageWithTimestamp computed by sendMessageInternal,
socket-client.ts lines 273-276: the message with createdAt replaced by the
current time. -/
def stampMessage (m : ChatMessage) (now : String) : ChatMessage :=
  { m with createdAt := now }

/-- The retry loop of sendMessageInternal, socket-client.ts lines 279-319,
driven by one outcome per attempt. retryCount starts at 0 and maxRetries is
3. On a successful acknowledgment the inner promise resolves with
response.message when present, else with the stamped message. On an explicit
failure the retry is scheduled after 1000 times the incremented retryCount
milliseconds; on a per-attempt timeout the retry is invoked immediately
(delay 0). After the fourth failing attempt the promise rejects with the
last server error (or the default text) on the failure path, or with the
timeout text on the timeout path. The second component is the list of
scheduled backoff delays, in milliseconds, between consecutive attempts. -/
def sendMessageInternal (stamped : ChatMessage) (retryCount : Nat) :
    List AttemptOutcome → SendResult × List Nat
  | [] => (SendResult.pending, [])
  | AttemptOutcome.ackSuccess sm :: _ => (SendResult.resolved sm, [])
  | AttemptOutcome.ackSuccessNoMessage :: _ => (SendResult.resolved stamped, [])
  | AttemptOutcome.ackFailure err :: rest =>
    if retryCount + 1 ≤ 3 then
      let p := sendMessageInternal stamped (retryCount + 1) rest
      (p.1, 1000 * (retryCount + 1) :: p.2)
    else
      (SendResult.rejected (err.getD "Failed to send message after multiple attempts"), [])
  | AttemptOutcome.timeout :: rest =>
    if retryCount + 1 ≤ 3 then
      let p := sendMessageInternal stamped (retryCount + 1) rest
      (p.1, 0 :: p.2)
    else
      (SendResult.rejected "Message send failed: Timeout after multiple attempts", [])

/-- Settlement of the outer promise returned by sendMessage for one message,
as performed by processMessageQueue, socket-client.ts lines 251-260: on
success of sendMessageInternal the outer promise is resolved with
messageData, the original argument of the call (the value produced by
sendMessageInternal is discarded by the await on line 255); on failure the
outer promise is rejected with the same error. -/
def processOneMessage (messageData : ChatMessage) (now : String)
    (outcomes : List AttemptOutcome) : SendResult :=
  match (sendMessageInternal (stampMessage messageData now) 0 outcomes).1 with
  | SendResult.resolved _ => SendResult.resolved messageData
  | SendResult.rejected e => SendResult.rejected e
  | SendResult.pending => SendResult.pending

/-- The failure handler of LiveChatComponent.sendMessage, LiveChat.tsx lines
192-196: when the send promise rejects, the message with the given id is
marked failed in the message list. -/
def markMessageFailed (msgs : List ChatMessage) (mid : String) : List ChatMessage :=
  msgs.map (fun msg => if msg.id = mid then { msg with failed := true } else msg)

/-- Observable event of the outbound queue: a wire emission of the
send-message event for a given message id at a given attempt index, or the
settlement of that message's delivery. -/
inductive QEvent where
  | emit (mid : String) (attempt : Nat)
  | settled (mid : String) (ok : Bool)
deriving Repr, DecidableEq

/-- Wire-level trace of sendMessageInternal for one message, mirroring the
retry loop of socket-client.ts lines 279-319: each consumed attempt outcome
is preceded by an emission, and the trace ends with a settlement event when
the promise settles. The boolean is true when the promise settled within the
given schedule. -/
def msgTrace (mid : String) (retryCount : Nat) :
    List AttemptOutcome → List QEvent × Bool
  | [] => ([QEvent.emit mid retryCount], false)
  | AttemptOutcome.ackSuccess _ :: _ =>
    ([QEvent.emit mid retryCount, QEvent.settled mid true], true)
  | AttemptOutcome.ackSuccessNoMessage :: _ =>
    ([QEvent.emit mid retryCount, QEvent.settled mid true], true)
  | AttemptOutcome.ackFailure _ :: rest =>
    if retryCount + 1 ≤ 3 then
      let p := msgTrace mid (retryCount + 1) rest
      (QEvent.emit mid retryCount :: p.1, p.2)
    else
      ([QEvent.emit mid retryCount, QEvent.settled mid false], true)
  | AttemptOutcome.timeout :: rest =>
    if retryCount + 1 ≤ 3 then
      let p := msgTrace mid (retryCount + 1) rest
      (QEvent.emit mid retryCount :: p.1, p.2)
    else
      ([QEvent.emit mid retryCount, QEvent.settled mid false], true)

/-- Trace of the processMessageQueue while loop, socket-client.ts lines
244-263: entries are shifted from the front of the queue one at a time, and
the await on line 255 means the next entry is not dequeued until the current
delivery has settled; a delivery whose schedule never settles blocks the
queue, so later entries produce no events. -/
def processMessageQueueTrace : List (String × List AttemptOutcome) → List QEvent
  | [] => []
  | (mid, outs) :: rest =>
    let p := msgTrace mid 0 outs
    if p.2 then p.1 ++ processMessageQueueTrace rest else p.1

/-- Selects the message id of a first-attempt emission event. -/
def firstAttemptPick : QEvent → Option String
  | QEvent.emit i 0 => some i
  | _ => none

/-- Message ids of first-attempt emissions, in trace order: the order in
which messages first reach the wire. -/
def firstAttemptEmits (tr : List QEvent) : List String :=
  tr.filterMap firstAttemptPick

/-- One-in-flight checker: scans a trace carrying the id of the message
currently in flight (emitted but not settled); it rejects a trace in which a
message is emitted while a different message is still in flight, or a
settlement arrives for a message not in flight. -/
def chkOneInFlight : Option String → List QEvent → Bool
  | _, [] => true
  | none, QEvent.emit i _ :: r => chkOneInFlight (some i) r
  | some c, QEvent.emit i _ :: r => if i = c then chkOneInFlight (some c) r else false
  | some c, QEvent.settled i _ :: r => if i = c then chkOneInFlight none r else false
  | none, QEvent.settled _ _ :: _ => false

/-- Server response to the create-session emission, socket-client.ts lines
204-227: success carrying the confirmed session, or a failure optionally
carrying a server error string. -/
inductive Phase1Resp where
  | success (sess : ChatSession)
  | failure (err : Option String)
deriving Repr, DecidableEq

/-- Server response to the join-session emission, socket-client.ts lines
209-220. -/
inductive Phase2Resp where
  | success
  | failure (err : Option String)
deriving Repr, DecidableEq

/-- Settlement of the createChatSession promise. Every run settles because
the 15 second timer fires when neither acknowledgment does. -/
inductive SessionResult where
  | resolved (s : ChatSession)
  | rejected (e : String)
deriving Repr, DecidableEq

/-- The createChatSession method, socket-client.ts lines 189-229, driven by
the arrival times (milliseconds after the call) and contents of the two
acknowledgments; none means the acknowledgment never arrives. A single
15000 ms timer is armed at the start; it is cleared on a phase-1 failure and
on any phase-2 acknowledgment, so an acknowledgment arriving at or after
15000 ms finds the promise already rejected by the timer. An explicit
failure response carries the server error when present, else the default
text. Only full success of both phases resolves, with the phase-1 server
session. -/
def createChatSession (socketPresent : Bool) (isConnected : Bool)
    (sessionData : ChatSession)
    (phase1 : Option (Nat × Phase1Resp)) (phase2 : Option (Nat × Phase2Resp)) :
    SessionResult :=
  if !(socketPresent && isConnected) then
    SessionResult.rejected "Socket not connected. Please check your internet connection."
  else
    match phase1 with
    | none => SessionResult.rejected "Session creation timed out. Please try again."
    | some (t1, r1) =>
      if 15000 ≤ t1 then
        SessionResult.rejected "Session creation timed out. Please try again."
      else
        match r1 with
        | Phase1Resp.failure err =>
          SessionResult.rejected (err.getD "Failed to create session")
        | Phase1Resp.success sess =>
          match phase2 with
          | none => SessionResult.rejected "Session creation timed out. Please try again."
          | some (t2, r2) =>
            if 15000 ≤ t2 then
              SessionResult.rejected "Session creation timed out. Please try again."
            else
              match r2 with
              | Phase2Resp.success => SessionResult.resolved sess
              | Phase2Resp.failure err =>
                SessionResult.rejected (err.getD "Failed to join session room")

/-- Transport events whose handlers are installed in connect,
socket-client.ts lines 55-142, together with the two public client calls
that mutate connection state. Error-bearing events carry the message text
the handler stores and the current wall-clock string used for the error
timestamp; callConnect carries the identity of the connection object a new
io() call would create. -/
inductive TransportEvent where
  | evConnect
  | evDisconnect (reason : String) (now : String)
  | evConnectError (msg : String) (code : Option String) (now : String)
  | evReconnect (attemptNumber : Nat)
  | evReconnectAttempt (attemptNumber : Nat)
  | evReconnectError (msg : String) (now : String)
  | evReconnectFailed (now : String)
  | evError (msg : String) (now : String)
  | callConnect (fresh : SocketConn)
  | callDisconnect
deriving Repr, DecidableEq

/-- One step of the client state machine. Each transport event applies the
partial updateConnectionState merge of its handler (socket-client.ts lines
147-150); handlers exist only once a socket has been created, so transport
events are no-ops while socket is none. The connected flag of the socket
tracks the transport condition the events report. -/
def step (c : SocketClientState) : TransportEvent → SocketClientState
  | TransportEvent.evConnect =>
    if c.socket.isNone then c
    else
      { c with
          socket := c.socket.map (fun s => { s with connected := true })
          connectionState :=
            { isConnected := true, isConnecting := false, lastError := none,
              reconnectAttempts := 0 } }
  | TransportEvent.evDisconnect reason now =>
    if c.socket.isNone then c
    else
      { c with
          socket := c.socket.map (fun s => { s with connected := false })
          connectionState :=
            { c.connectionState with
                isConnected := false
                isConnecting := false
                lastError := some { message := "Disconnected: " ++ reason,
                                    code := none, timestamp := now } } }
  | TransportEvent.evConnectError msg code now =>
    if c.socket.isNone then c
    else
      { c with
          socket := c.socket.map (fun s => { s with connected := false })
          connectionState :=
            { c.connectionState with
                isConnected := false
                isConnecting := false
                lastError := some { message := msg, code := code, timestamp := now } } }
  | TransportEvent.evReconnect _ =>
    if c.socket.isNone then c
    else
      { c with
          socket := c.socket.map (fun s => { s with connected := true })
          connectionState :=
            { isConnected := true, isConnecting := false, lastError := none,
              reconnectAttempts := 0 } }
  | TransportEvent.evReconnectAttempt n =>
    if c.socket.isNone then c
    else
      { c with
          connectionState :=
            { c.connectionState with isConnecting := true, reconnectAttempts := n } }
  | TransportEvent.evReconnectError msg now =>
    if c.socket.isNone then c
    else
      { c with
          connectionState :=
            { c.connectionState with
                isConnecting := false
                lastError := some { message := "Reconnection failed: " ++ msg,
                                    code := none, timestamp := now } } }
  | TransportEvent.evReconnectFailed now =>
    if c.socket.isNone then c
    else
      { c with
          connectionState :=
            { c.connectionState with
                isConnected := false
                isConnecting := false
                lastError := some { message := "All reconnection attempts failed",
                                    code := none, timestamp := now } } }
  | TransportEvent.evError msg now =>
    if c.socket.isNone then c
    else
      { c with
          connectionState :=
            { c.connectionState with
                lastError := some { message := msg, code := none, timestamp := now } } }
  | TransportEvent.callConnect fresh => (connect c fresh).1
  | TransportEvent.callDisconnect => (disconnect c).1

/-- Whether the physical connection currently reports connected. -/
def socketConnected (c : SocketClientState) : Bool :=
  match c.socket with
  | some s => s.connected
  | none => false

/-- Transport-consistency of one event in a given state: socket.io fires
reconnect_attempt only while the connection is down, never while the socket
is connected. All other events and calls are unconstrained. -/
def admissibleAt (c : SocketClientState) : TransportEvent → Bool
  | TransportEvent.evReconnectAttempt _ => !(socketConnected c)
  | _ => true

/-- Transport-consistency of a whole event sequence run from a given state. -/
def admissibleRun (c : SocketClientState) : List TransportEvent → Bool
  | [] => true
  | e :: r => admissibleAt c e && admissibleRun (step c e) r

/-- The new-message side of the Inbound Event Dispatcher, socket-client.ts
lines 336-339: onNewMessage registers the callback directly on the socket
event, so the callback is invoked once per received new-message event, in
arrival order, with no deduplication. The forwarded list is therefore the
received list itself. -/
def onNewMessageForward (events : List ChatMessage) : List ChatMessage :=
  events

/-- The new-message listener registered by LiveChatComponent, LiveChat.tsx
lines 115-126: a received message is appended to the message list unless a
message with the same id is already present. -/
def addMessage (msgs : List ChatMessage) (m : ChatMessage) : List ChatMessage :=
  if msgs.any (fun msg => msg.id = m.id) then msgs else msgs ++ [m]

/-- The message list built by the LiveChat listener from the stream of
events forwarded by the dispatcher. -/
def liveChatInbox (events : List ChatMessage) : List ChatMessage :=
  (onNewMessageForward events).foldl addMessage []

/-- Appending an id to a list of ids unless already present. -/
def addId (ids : List String) (i : String) : List String :=
  if i ∈ ids then ids else ids ++ [i]

/-- Keep the first occurrence of each id, in first-occurrence order. -/
def dedupKeepFirst (ids : List String) : List String :=
  ids.foldl addId []

/-- The onConnectionStateChange method, socket-client.ts lines 162-174:
appends the listener to the registry and immediately invokes it with the
current connection state. Listeners are identified by the identity of the
registered function object. The second component records the immediate
synchronous invocation. -/
def onConnectionStateChange (listeners : List Nat) (l : Nat)
    (current : ConnectionState) : List Nat × (Nat × ConnectionState) :=
  (listeners ++ [l], (l, current))

/-- The unsubscribe closure returned by onConnectionStateChange,
socket-client.ts lines 168-173: indexOf finds the first occurrence of the
listener and splice removes that single occurrence; a listener not present
leaves the registry unchanged. -/
def unsubscribeListener : List Nat → Nat → List Nat
  | [], _ => []
  | x :: rest, l => if x = l then rest else x :: unsubscribeListener rest l

/-- The notifyConnectionListeners method, socket-client.ts lines 152-160:
every registered listener is invoked, in registration order. -/
def notifyConnectionListeners (listeners : List Nat) : List Nat :=
  listeners

/-
Concrete sample data used by witnesses and counterexamples.
-/

/-- Sample outbound message. -/
def msgOriginal : ChatMessage :=
  { id := "m1", sessionId := "s1", sender := "user", message := "hi",
    createdAt := "2025-01-01T00:00:00.000Z" }

/-- Server copy of the sample message, with a drifted timestamp. -/
def msgServerCopy : ChatMessage :=
  { msgOriginal with createdAt := "2025-01-01T00:00:05.000Z" }

/-- Sample message in flight at disconnect time. -/
def inFlightMsg : ChatMessage :=
  { id := "mInFlight", sessionId := "s1", sender := "user", message := "first",
    createdAt := "2025-01-01T00:00:00.000Z" }

/-- Sample message still queued at disconnect time. -/
def queuedMsg : ChatMessage :=
  { id := "mQueued", sessionId := "s1", sender := "user", message := "second",
    createdAt := "2025-01-01T00:00:00.500Z" }

/-- A client with one delivery in flight and one entry still queued. -/
def busyClient : SocketClientState :=
  { socket := some { connected := true, sid := 1 }
    sessionId := some "s1"
    messageQueue := [queuedMsg]
    isProcessingQueue := true
    inFlight := some inFlightMsg
    connectionState :=
      { isConnected := true, isConnecting := false, lastError := none,
        reconnectAttempts := 0 }
    connectionListeners := [] }

/-- A client whose socket is live and connected. -/
def connectedClient : SocketClientState :=
  { initialClient with
      socket := some { connected := true, sid := 7 }
      connectionState :=
        { isConnected := true, isConnecting := false, lastError := none,
          reconnectAttempts := 0 } }

/-- Sample session draft. -/
def sessionDraft : ChatSession :=
  { id := "session_1", userId := "user_1", userEmail := "a@b.c",
    userName := "A", status := "waiting",
    createdAt := "2025-01-01T00:00:00.000Z",
    updatedAt := "2025-01-01T00:00:00.000Z",
    initialMessage := "User requested live chat support",
    questionAnswerPairs := [] }

/-- Server-confirmed copy of the sample session. -/
def sessionConfirmed : ChatSession :=
  { sessionDraft with status := "waiting" }

/-
Claim theorems.
-/

/-- C2: the claim states that a successfully acknowledged send resolves the
promise returned by sendMessage with the server copy of the message carried
in the acknowledgment. The inner promise of sendMessageInternal does resolve
with the server copy (socket-client.ts line 303), but processMessageQueue
discards that value and resolves the outer promise with the original
messageData (lines 255-256), so the caller never sees the server copy. This
theorem evaluates the embedding at the failing input: an acknowledgment
carrying a server copy with a drifted createdAt. -/
theorem c2_resolves_with_original_not_server_copy :
    (sendMessageInternal (stampMessage msgOriginal "2025-01-01T00:00:01.000Z") 0
        [AttemptOutcome.ackSuccess msgServerCopy]).1 = SendResult.resolved msgServerCopy ∧
    processOneMessage msgOriginal "2025-01-01T00:00:01.000Z"
        [AttemptOutcome.ackSuccess msgServerCopy] = SendResult.resolved msgOriginal ∧
    msgOriginal ≠ msgServerCopy := by
  refine ⟨rfl, rfl, ?_⟩
  decide

/-- C5 counterexample: at disconnect time with one delivery in flight and
one entry queued, the rejection list produced by disconnect contains only
the queued entry; the in-flight send receives no Connection closed
rejection, contradicting the claim that every queued and in-flight send is
rejected with a connection closed error. -/
theorem c5_counterexample :
    (disconnect busyClient).2 = [(queuedMsg, "Connection closed")] ∧
    busyClient.inFlight = some inFlightMsg ∧
    inFlightMsg ∉ (disconnect busyClient).2.map Prod.fst := by
  refine ⟨rfl, rfl, ?_⟩
  decide

/-- C5 amended: disconnect rejects every send still in the outbound queue
with a Connection closed error, clears the queue, and resets ConnectionState
to its initial values; the in-flight send is not rejected by disconnect, and
its delivery later fails through its own per-attempt timeout path, rejecting
with the timeout error once all attempts are exhausted. -/
theorem c5_amended (c : SocketClientState) :
    (disconnect c).1.messageQueue = [] ∧
    (disconnect c).1.connectionState = initialConnectionState ∧
    (disconnect c).1.inFlight = c.inFlight ∧
    (disconnect c).2 = c.messageQueue.map (fun m => (m, "Connection closed")) ∧
    ∀ m : ChatMessage,
      (sendMessageInternal m 0
          [AttemptOutcome.timeout, AttemptOutcome.timeout, AttemptOutcome.timeout,
            AttemptOutcome.timeout]).1 =
        SendResult.rejected "Message send failed: Timeout after multiple attempts" := by
  unfold disconnect
  refine ⟨?_, ?_, ?_, ?_, ?_⟩
  · by_cases h : c.socket.isSome <;> simp [h]
  · by_cases h : c.socket.isSome <;> simp [h]
  · by_cases h : c.socket.isSome <;> simp [h]
  · rfl
  · intro m
    rfl

/-- C6: a sendMessage call made while the transport is not connected (no
socket object, or connection state not connected) rejects immediately with
the not-connected error, leaves the client state (in particular the
outbound queue) unchanged, and performs no wire emission. -/
theorem c6_send_not_connected (c : SocketClientState) (m : ChatMessage)
    (h : c.socket = none ∨ c.connectionState.isConnected = false) :
    sendMessage c m =
      (c, SendCall.rejectedNow "Cannot send message: Not connected to server", []) := by
  unfold sendMessage
  rcases h with h | h <;> simp [h]

/-- C6 witness: a concrete disconnected client. -/
theorem c6_send_not_connected_witness :
    sendMessage initialClient msgOriginal =
      (initialClient, SendCall.rejectedNow "Cannot send message: Not connected to server", []) :=
  c6_send_not_connected initialClient msgOriginal (Or.inl rfl)

/-- C7: calling connect while the socket exists and is connected returns the
same live connection object with no state change and no emission; and the
connect event handler emits register-client exactly once per successful
connect. -/
theorem c7_connect_idempotent (c : SocketClientState) (s fresh : SocketConn)
    (hsock : c.socket = some s) (hconn : s.connected = true) :
    connect c fresh = (c, s, []) ∧
    (handleConnectEvent c).2 = ["register-client"] := by
  constructor
  · unfold connect
    rw [hsock]
    simp [hconn]
  · unfold handleConnectEvent
    simp [hsock]

/-- C7 witness: a concrete connected client. -/
theorem c7_connect_idempotent_witness :
    connect connectedClient { connected := false, sid := 8 } =
      (connectedClient, { connected := true, sid := 7 }, []) ∧
    (handleConnectEvent connectedClient).2 = ["register-client"] :=
  c7_connect_idempotent connectedClient { connected := true, sid := 7 }
    { connected := false, sid := 8 } rfl rfl

lemma unsubscribeListener_append (l : Nat) :
    ∀ ls : List Nat, l ∉ ls → unsubscribeListener (ls ++ [l]) l = ls := by
  intro ls
  induction ls with
  | nil => intro _; simp [unsubscribeListener]
  | cons x rest ih =>
    intro h
    have hne : x ≠ l := by
      intro hx
      exact h (by simp [hx])
    have hrest : l ∉ rest := by
      intro hr
      exact h (List.mem_cons_of_mem _ hr)
    simp [unsubscribeListener, hne, ih hrest]

/-- C10: registering a listener via onConnectionStateChange invokes it
synchronously with the current connection state; the returned unsubscribe
closure removes exactly that listener, restoring the previous registry, so
the removed listener is no longer among the listeners notified while every
other registered listener is unaffected. -/
theorem c10_subscribe_unsubscribe (ls : List Nat) (l : Nat)
    (cur : ConnectionState) (h : l ∉ ls) :
    (onConnectionStateChange ls l cur).2 = (l, cur) ∧
    unsubscribeListener (onConnectionStateChange ls l cur).1 l = ls ∧
    l ∉ notifyConnectionListeners (unsubscribeListener (onConnectionStateChange ls l cur).1 l) := by
  refine ⟨rfl, unsubscribeListener_append l ls h, ?_⟩
  have he : (onConnectionStateChange ls l cur).1 = ls ++ [l] := rfl
  rw [he, unsubscribeListener_append l ls h]
  simpa [notifyConnectionListeners] using h

/-- C10 witness: a concrete registry. -/
theorem c10_subscribe_unsubscribe_witness :
    (onConnectionStateChange [1, 2] 3 initialConnectionState).2 = (3, initialConnectionState) ∧
    unsubscribeListener (onConnectionStateChange [1, 2] 3 initialConnectionState).1 3 = [1, 2] ∧
    3 ∉ notifyConnectionListeners
        (unsubscribeListener (onConnectionStateChange [1, 2] 3 initialConnectionState).1 3) :=
  c10_subscribe_unsubscribe [1, 2] 3 initialConnectionState (by decide)

/-- Whether an attempt outcome is a failing one: an explicit failure
response or a per-attempt timeout. -/
def isFailingOutcome : AttemptOutcome → Bool
  | AttemptOutcome.ackFailure _ => true
  | AttemptOutcome.timeout => true
  | _ => false

/-- Backoff delay scheduled after the k-th failing attempt, socket-client.ts
lines 288-296 and 305-308: an explicit failure schedules the retry after
1000 times the retry number; a timeout invokes the retry immediately. -/
def retryDelay (o : AttemptOutcome) (k : Nat) : Nat :=
  match o with
  | AttemptOutcome.ackFailure _ => 1000 * k
  | _ => 0

lemma markMessageFailed_mem (msgs : List ChatMessage) (mid : String) :
    ∀ x ∈ markMessageFailed msgs mid, x.id = mid → x.failed = true := by
  intro x hx hid
  unfold markMessageFailed at hx
  rcases List.mem_map.mp hx with ⟨y, _, rfl⟩
  by_cases h : y.id = mid
  · simp [h]
  · simp only [if_neg h] at hid
    exact absurd hid h

/-- C3 counterexample: the claim states that every failing attempt
(explicit failure or timeout) is retried after a linearly increasing delay
of attempt_number times the base delay, and that a send failing on every of
3 attempts rejects. On the code, a run of four consecutive per-attempt
timeouts schedules its three retries with delay 0 each, not 1000, 2000,
3000 ms; and after only three failing attempts the promise is still pending
(the code performs an initial attempt plus 3 retries before rejecting). -/
theorem c3_counterexample :
    (sendMessageInternal (stampMessage msgOriginal "2025-01-01T00:00:01.000Z") 0
        [AttemptOutcome.timeout, AttemptOutcome.timeout, AttemptOutcome.timeout,
          AttemptOutcome.timeout]).2 = [0, 0, 0] ∧
    [0, 0, 0] ≠ [1000 * 1, 1000 * 2, 1000 * 3] ∧
    processOneMessage msgOriginal "2025-01-01T00:00:01.000Z"
        [AttemptOutcome.ackFailure none, AttemptOutcome.ackFailure none,
          AttemptOutcome.ackFailure none] = SendResult.pending := by
  exact ⟨rfl, by decide, rfl⟩

/-- C3 amended: a send whose initial attempt and all 3 retries fail rejects
its promise with a delivery error and ignores any outcome after exhaustion;
the delay scheduled before each retry is retry_number times 1000 ms after an
explicit failure response but 0 (immediate retry) after a per-attempt
timeout; and the caller marks the message failed when the promise rejects. -/
theorem c3_retry_exhaustion (md : ChatMessage) (now : String)
    (msgs : List ChatMessage) (o1 o2 o3 o4 : AttemptOutcome)
    (rest : List AttemptOutcome)
    (h1 : isFailingOutcome o1 = true) (h2 : isFailingOutcome o2 = true)
    (h3 : isFailingOutcome o3 = true) (h4 : isFailingOutcome o4 = true) :
    (∃ e, processOneMessage md now (o1 :: o2 :: o3 :: o4 :: rest) =
        SendResult.rejected e) ∧
    (sendMessageInternal (stampMessage md now) 0 (o1 :: o2 :: o3 :: o4 :: rest)).2 =
      [retryDelay o1 1, retryDelay o2 2, retryDelay o3 3] ∧
    processOneMessage md now (o1 :: o2 :: o3 :: o4 :: rest) =
      processOneMessage md now [o1, o2, o3, o4] ∧
    ∀ x ∈ markMessageFailed msgs md.id, x.id = md.id → x.failed = true := by
  have hmark := markMessageFailed_mem msgs md.id
  cases o1 <;> cases o2 <;> cases o3 <;> cases o4 <;>
    simp [isFailingOutcome] at h1 h2 h3 h4 <;>
    exact ⟨⟨_, rfl⟩, rfl, rfl, hmark⟩

/-- C3 witness: a concrete schedule of one timeout, one explicit failure,
one timeout and a final explicit failure, followed by an ignored success. -/
theorem c3_retry_exhaustion_witness :
    (∃ e, processOneMessage msgOriginal "2025-01-01T00:00:01.000Z"
        [AttemptOutcome.timeout, AttemptOutcome.ackFailure (some "agent offline"),
          AttemptOutcome.timeout, AttemptOutcome.ackFailure none,
          AttemptOutcome.ackSuccessNoMessage] = SendResult.rejected e) ∧
    (sendMessageInternal (stampMessage msgOriginal "2025-01-01T00:00:01.000Z") 0
        [AttemptOutcome.timeout, AttemptOutcome.ackFailure (some "agent offline"),
          AttemptOutcome.timeout, AttemptOutcome.ackFailure none,
          AttemptOutcome.ackSuccessNoMessage]).2 =
      [retryDelay AttemptOutcome.timeout 1,
        retryDelay (AttemptOutcome.ackFailure (some "agent offline")) 2,
        retryDelay AttemptOutcome.timeout 3] ∧
    processOneMessage msgOriginal "2025-01-01T00:00:01.000Z"
        [AttemptOutcome.timeout, AttemptOutcome.ackFailure (some "agent offline"),
          AttemptOutcome.timeout, AttemptOutcome.ackFailure none,
          AttemptOutcome.ackSuccessNoMessage] =
      processOneMessage msgOriginal "2025-01-01T00:00:01.000Z"
        [AttemptOutcome.timeout, AttemptOutcome.ackFailure (some "agent offline"),
          AttemptOutcome.timeout, AttemptOutcome.ackFailure none] ∧
    ∀ x ∈ markMessageFailed [msgOriginal] msgOriginal.id,
      x.id = msgOriginal.id → x.failed = true :=
  c3_retry_exhaustion msgOriginal "2025-01-01T00:00:01.000Z" [msgOriginal]
    AttemptOutcome.timeout (AttemptOutcome.ackFailure (some "agent offline"))
    AttemptOutcome.timeout (AttemptOutcome.ackFailure none)
    [AttemptOutcome.ackSuccessNoMessage] rfl rfl rfl rfl

/-- C4: the single 15 second timer spans both handshake phases: a run whose
phase 1 acknowledges successfully before 15 s but whose phase 2 never
acknowledges, or acknowledges only at or after 15 s, rejects with the timed
out error; and an explicit failure response from either phase arriving
before the timer fires rejects with the server-supplied error message, the
timer being cancelled. -/
theorem c4_handshake_timeout (sd sess : ChatSession) (e1 e2 : String)
    (t1 tLate tEarly : Nat) (r2 : Phase2Resp) (p2 : Option (Nat × Phase2Resp))
    (h1 : t1 < 15000) (hl : 15000 ≤ tLate) (he : tEarly < 15000) :
    createChatSession true true sd (some (t1, Phase1Resp.success sess)) none =
      SessionResult.rejected "Session creation timed out. Please try again." ∧
    createChatSession true true sd (some (t1, Phase1Resp.success sess))
        (some (tLate, r2)) =
      SessionResult.rejected "Session creation timed out. Please try again." ∧
    createChatSession true true sd (some (t1, Phase1Resp.failure (some e1))) p2 =
      SessionResult.rejected e1 ∧
    createChatSession true true sd (some (t1, Phase1Resp.success sess))
        (some (tEarly, Phase2Resp.failure (some e2))) =
      SessionResult.rejected e2 := by
  have hn1 : ¬(15000 ≤ t1) := by omega
  have hne : ¬(15000 ≤ tEarly) := by omega
  refine ⟨?_, ?_, ?_, ?_⟩ <;> simp [createChatSession, hn1, hl, hne]

/-- C4 witness: concrete acknowledgment times on either side of the 15 s
timer. -/
theorem c4_handshake_timeout_witness :
    createChatSession true true sessionDraft
        (some (1000, Phase1Resp.success sessionConfirmed)) none =
      SessionResult.rejected "Session creation timed out. Please try again." ∧
    createChatSession true true sessionDraft
        (some (1000, Phase1Resp.success sessionConfirmed))
        (some (20000, Phase2Resp.success)) =
      SessionResult.rejected "Session creation timed out. Please try again." ∧
    createChatSession true true sessionDraft
        (some (1000, Phase1Resp.failure (some "duplicate session"))) none =
      SessionResult.rejected "duplicate session" ∧
    createChatSession true true sessionDraft
        (some (1000, Phase1Resp.success sessionConfirmed))
        (some (2000, Phase2Resp.failure (some "room unavailable"))) =
      SessionResult.rejected "room unavailable" :=
  c4_handshake_timeout sessionDraft sessionConfirmed "duplicate session"
    "room unavailable" 1000 20000 2000 Phase2Resp.success none
    (by omega) (by omega) (by omega)

lemma any_id_eq_mem (acc : List ChatMessage) (i : String) :
    acc.any (fun msg => msg.id = i) = true ↔ i ∈ acc.map (fun msg => msg.id) := by
  constructor
  · intro h
    rcases List.any_eq_true.mp h with ⟨x, hx, hpx⟩
    exact List.mem_map.mpr ⟨x, hx, of_decide_eq_true hpx⟩
  · intro h
    rcases List.mem_map.mp h with ⟨x, hx, hfx⟩
    exact List.any_eq_true.mpr ⟨x, hx, decide_eq_true hfx⟩

lemma foldl_addMessage_ids (events : List ChatMessage) :
    ∀ acc : List ChatMessage,
      (events.foldl addMessage acc).map (fun m => m.id) =
        (events.map (fun m => m.id)).foldl addId (acc.map (fun m => m.id)) := by
  induction events with
  | nil => intro _; rfl
  | cons m rest ih =>
    intro acc
    simp only [List.foldl_cons, List.map_cons]
    rw [ih]
    have hstep : (addMessage acc m).map (fun x => x.id) =
        addId (acc.map (fun x => x.id)) m.id := by
      by_cases h : m.id ∈ acc.map (fun msg => msg.id)
      · simp [addMessage, addId, (any_id_eq_mem acc m.id).mpr h, h]
      · have hb : ¬(acc.any (fun msg => msg.id = m.id) = true) :=
          fun hh => h ((any_id_eq_mem acc m.id).mp hh)
        simp [addMessage, addId, hb, h]
    rw [hstep]

lemma foldl_addId_nodup : ∀ (ids : List String) (acc : List String),
    acc.Nodup → (ids.foldl addId acc).Nodup := by
  intro ids
  induction ids with
  | nil => intro _ h; exact h
  | cons i rest ih =>
    intro acc h
    simp only [List.foldl_cons]
    apply ih
    unfold addId
    by_cases hm : i ∈ acc
    · simpa [hm] using h
    · simp [hm, List.nodup_append, h]

/-- C8 counterexample: the dispatcher registers the callback directly on
the socket event, so a new-message event replayed with a repeated id is
forwarded to the listener twice, not once as the claim states; the
deduplication happens only in the LiveChat listener, whose message list
gains the id once. -/
theorem c8_counterexample :
    onNewMessageForward [msgOriginal, msgOriginal] = [msgOriginal, msgOriginal] ∧
    ((onNewMessageForward [msgOriginal, msgOriginal]).filter
        (fun m => m.id = msgOriginal.id)).length = 2 ∧
    (2 : Nat) ≠ 1 ∧
    liveChatInbox [msgOriginal, msgOriginal] = [msgOriginal] := by
  refine ⟨rfl, by decide, by decide, by decide⟩

/-- C8 amended: the dispatcher forwards every inbound new-message event to
the registered listener unchanged, duplicates included; the LiveChat
listener deduplicates by message id when appending, so the resulting
message list carries each distinct id exactly once, in first-arrival
order, with no duplicate ids. -/
theorem c8_listener_dedup (events : List ChatMessage) :
    onNewMessageForward events = events ∧
    (liveChatInbox events).map (fun m => m.id) =
      dedupKeepFirst (events.map (fun m => m.id)) ∧
    ((liveChatInbox events).map (fun m => m.id)).Nodup := by
  refine ⟨rfl, ?_, ?_⟩
  · unfold liveChatInbox onNewMessageForward dedupKeepFirst
    simpa using foldl_addMessage_ids events []
  · unfold liveChatInbox onNewMessageForward
    have h := foldl_addMessage_ids events []
    simp only [List.map_nil] at h
    rw [h]
    exact foldl_addId_nodup (events.map (fun m => m.id)) [] List.nodup_nil

/-- Boolean form of the connection-flag invariant, strengthened with the
coupling that a connected marking implies the physical socket reports
connected. -/
def connFlagsOk (c : SocketClientState) : Bool :=
  (!c.connectionState.isConnected || socketConnected c) &&
    !(c.connectionState.isConnected && c.connectionState.isConnecting)

/-- Event sequence on which the claim as stated fails: a reconnect_attempt
delivered while the socket is connected. -/
def c9BadRun : List TransportEvent :=
  [TransportEvent.callConnect { connected := false, sid := 1 },
    TransportEvent.evConnect,
    TransportEvent.evReconnectAttempt 1]

/-- C9 counterexample: the claim quantifies over any sequence of the listed
transport events and client calls. The reconnect_attempt handler merges
only isConnecting true and the attempt counter into the state without
clearing isConnected, so the word connect then reconnect_attempt, which the
claim admits, reaches a state with both flags true. -/
theorem c9_counterexample :
    (c9BadRun.foldl step initialClient).connectionState.isConnected = true ∧
    (c9BadRun.foldl step initialClient).connectionState.isConnecting = true := by
  exact ⟨rfl, rfl⟩

lemma connFlagsOk_step (c : SocketClientState) (e : TransportEvent)
    (hinv : connFlagsOk c = true) (hadm : admissibleAt c e = true) :
    connFlagsOk (step c e) = true := by
  have hparts := hinv
  simp only [connFlagsOk, Bool.and_eq_true] at hparts
  cases e with
  | evConnect =>
    cases hs : c.socket with
    | none => simpa [step, hs] using hinv
    | some s => simp [step, hs, connFlagsOk, socketConnected]
  | evDisconnect reason now =>
    cases hs : c.socket with
    | none => simpa [step, hs] using hinv
    | some s => simp [step, hs, connFlagsOk, socketConnected]
  | evConnectError msg code now =>
    cases hs : c.socket with
    | none => simpa [step, hs] using hinv
    | some s => simp [step, hs, connFlagsOk, socketConnected]
  | evReconnect n =>
    cases hs : c.socket with
    | none => simpa [step, hs] using hinv
    | some s => simp [step, hs, connFlagsOk, socketConnected]
  | evReconnectAttempt n =>
    cases hs : c.socket with
    | none => simpa [step, hs] using hinv
    | some s =>
      have hsc : socketConnected c = false := by
        simp only [admissibleAt, Bool.not_eq_true'] at hadm
        exact hadm
      have hic : c.connectionState.isConnected = false := by
        cases hcc : c.connectionState.isConnected with
        | false => rfl
        | true =>
          have h1 := hparts.1
          rw [hcc, hsc] at h1
          cases h1
      simp [step, hs, connFlagsOk, socketConnected, hic]
  | evReconnectError msg now =>
    cases hs : c.socket with
    | none => simpa [step, hs] using hinv
    | some s =>
      simp only [step, hs, Option.isNone_some]
      simp only [connFlagsOk, socketConnected, Bool.and_eq_true] at hparts ⊢
      simpa [hs] using hparts.1
  | evReconnectFailed now =>
    cases hs : c.socket with
    | none => simpa [step, hs] using hinv
    | some s => simp [step, hs, connFlagsOk, socketConnected]
  | evError msg now =>
    cases hs : c.socket with
    | none => simpa [step, hs] using hinv
    | some s =>
      simp only [step, hs, Option.isNone_some]
      simp only [connFlagsOk, socketConnected, Bool.and_eq_true] at hparts ⊢
      simpa [hs] using hparts
  | callConnect fresh =>
    cases hs : c.socket with
    | none =>
      have hic : c.connectionState.isConnected = false := by
        cases hcc : c.connectionState.isConnected with
        | false => rfl
        | true =>
          have h1 := hparts.1
          rw [hcc] at h1
          simp only [socketConnected, hs] at h1
          cases h1
      simp [step, connect, hs, connFlagsOk, socketConnected, hic]
    | some s =>
      cases hsc : s.connected with
      | true => simpa [step, connect, hs, hsc] using hinv
      | false =>
        have hic : c.connectionState.isConnected = false := by
          cases hcc : c.connectionState.isConnected with
          | false => rfl
          | true =>
            have h1 := hparts.1
            rw [hcc] at h1
            simp only [socketConnected, hs, hsc] at h1
            cases h1
        simp [step, connect, hs, hsc, connFlagsOk, socketConnected, hic]
  | callDisconnect =>
    by_cases hs : c.socket.isSome <;>
      simp [step, disconnect, hs, connFlagsOk, socketConnected, initialConnectionState]

lemma connFlagsOk_run : ∀ (es : List TransportEvent) (c : SocketClientState),
    connFlagsOk c = true → admissibleRun c es = true →
    connFlagsOk (es.foldl step c) = true
  | [], _, h, _ => h
  | e :: r, c, h, ha => by
    simp only [admissibleRun, Bool.and_eq_true] at ha
    exact connFlagsOk_run r (step c e) (connFlagsOk_step c e h ha.1) ha.2

/-- C9 amended: along every sequence of the listed transport events and
client calls in which reconnect_attempt events are delivered only while the
socket is not connected, as the transport guarantees, the reachable
connection states never have isConnected and isConnecting both true. -/
theorem c9_flags_invariant (es : List TransportEvent)
    (h : admissibleRun initialClient es = true) :
    ¬((es.foldl step initialClient).connectionState.isConnected = true ∧
      (es.foldl step initialClient).connectionState.isConnecting = true) := by
  have hok := connFlagsOk_run es initialClient (by decide) h
  rintro ⟨h1, h2⟩
  simp [connFlagsOk, h1, h2] at hok

/-- C9 witness: a run through connect, disconnect and a reconnection
attempt, transport-consistent throughout. -/
theorem c9_flags_invariant_witness :
    admissibleRun initialClient
        [TransportEvent.callConnect { connected := false, sid := 1 },
          TransportEvent.evConnect,
          TransportEvent.evDisconnect "transport close" "2025-01-01T00:00:10.000Z",
          TransportEvent.evReconnectAttempt 1] = true ∧
    ¬(([TransportEvent.callConnect { connected := false, sid := 1 },
          TransportEvent.evConnect,
          TransportEvent.evDisconnect "transport close" "2025-01-01T00:00:10.000Z",
          TransportEvent.evReconnectAttempt 1].foldl step
            initialClient).connectionState.isConnected = true ∧
      ([TransportEvent.callConnect { connected := false, sid := 1 },
          TransportEvent.evConnect,
          TransportEvent.evDisconnect "transport close" "2025-01-01T00:00:10.000Z",
          TransportEvent.evReconnectAttempt 1].foldl step
            initialClient).connectionState.isConnecting = true) :=
  ⟨by decide,
    c9_flags_invariant
      [TransportEvent.callConnect { connected := false, sid := 1 },
        TransportEvent.evConnect,
        TransportEvent.evDisconnect "transport close" "2025-01-01T00:00:10.000Z",
        TransportEvent.evReconnectAttempt 1] (by decide)⟩

lemma msgTrace_chk (mid : String) :
    ∀ (outs : List AttemptOutcome) (rc : Nat) (rest : List QEvent),
      ((msgTrace mid rc outs).2 = true →
        chkOneInFlight (some mid) ((msgTrace mid rc outs).1 ++ rest) =
          chkOneInFlight none rest ∧
        chkOneInFlight none ((msgTrace mid rc outs).1 ++ rest) =
          chkOneInFlight none rest) ∧
      ((msgTrace mid rc outs).2 = false →
        chkOneInFlight (some mid) (msgTrace mid rc outs).1 = true ∧
        chkOneInFlight none (msgTrace mid rc outs).1 = true) := by
  intro outs
  induction outs with
  | nil =>
    intro rc rest
    constructor
    · intro h
      simp [msgTrace] at h
    · intro _
      constructor <;> simp [msgTrace, chkOneInFlight]
  | cons o tail ih =>
    intro rc rest
    cases o with
    | ackSuccess sm =>
      constructor
      · intro _
        constructor <;> simp [msgTrace, chkOneInFlight]
      · intro h
        simp [msgTrace] at h
    | ackSuccessNoMessage =>
      constructor
      · intro _
        constructor <;> simp [msgTrace, chkOneInFlight]
      · intro h
        simp [msgTrace] at h
    | ackFailure err =>
      by_cases hrc : rc + 1 ≤ 3
      · have e1 : msgTrace mid rc (AttemptOutcome.ackFailure err :: tail) =
            (QEvent.emit mid rc :: (msgTrace mid (rc + 1) tail).1,
              (msgTrace mid (rc + 1) tail).2) := by
          simp [msgTrace, hrc]
        rw [e1]
        constructor
        · intro h
          obtain ⟨ha, hb⟩ := (ih (rc + 1) rest).1 h
          constructor <;> simpa [chkOneInFlight] using ha
        · intro h
          obtain ⟨ha, _⟩ := (ih (rc + 1) rest).2 h
          constructor <;> simpa [chkOneInFlight] using ha
      · have e1 : msgTrace mid rc (AttemptOutcome.ackFailure err :: tail) =
            ([QEvent.emit mid rc, QEvent.settled mid false], true) := by
          simp [msgTrace, hrc]
        rw [e1]
        constructor
        · intro _
          constructor <;> simp [chkOneInFlight]
        · intro h
          cases h
    | timeout =>
      by_cases hrc : rc + 1 ≤ 3
      · have e1 : msgTrace mid rc (AttemptOutcome.timeout :: tail) =
            (QEvent.emit mid rc :: (msgTrace mid (rc + 1) tail).1,
              (msgTrace mid (rc + 1) tail).2) := by
          simp [msgTrace, hrc]
        rw [e1]
        constructor
        · intro h
          obtain ⟨ha, hb⟩ := (ih (rc + 1) rest).1 h
          constructor <;> simpa [chkOneInFlight] using ha
        · intro h
          obtain ⟨ha, _⟩ := (ih (rc + 1) rest).2 h
          constructor <;> simpa [chkOneInFlight] using ha
      · have e1 : msgTrace mid rc (AttemptOutcome.timeout :: tail) =
            ([QEvent.emit mid rc, QEvent.settled mid false], true) := by
          simp [msgTrace, hrc]
        rw [e1]
        constructor
        · intro _
          constructor <;> simp [chkOneInFlight]
        · intro h
          cases h

lemma chk_processTrace : ∀ q : List (String × List AttemptOutcome),
    chkOneInFlight none (processMessageQueueTrace q) = true
  | [] => rfl
  | (mid, outs) :: rest => by
    by_cases hset : (msgTrace mid 0 outs).2 = true
    · simp only [processMessageQueueTrace, hset, if_true]
      rw [((msgTrace_chk mid outs 0 (processMessageQueueTrace rest)).1 hset).2]
      exact chk_processTrace rest
    · have hf : (msgTrace mid 0 outs).2 = false := by
        cases hv : (msgTrace mid 0 outs).2 with
        | false => rfl
        | true => exact absurd hv hset
      simp only [processMessageQueueTrace, hf, Bool.false_eq_true, if_false]
      exact ((msgTrace_chk mid outs 0 []).2 hf).2

lemma firstAttemptEmits_msgTrace_succ (mid : String) :
    ∀ (outs : List AttemptOutcome) (k : Nat),
      firstAttemptEmits (msgTrace mid (k + 1) outs).1 = [] := by
  intro outs
  induction outs with
  | nil => intro k; rfl
  | cons o tail ih =>
    intro k
    cases o with
    | ackSuccess sm => rfl
    | ackSuccessNoMessage => rfl
    | ackFailure err =>
      by_cases hrc : k + 1 + 1 ≤ 3
      · have e1 : msgTrace mid (k + 1) (AttemptOutcome.ackFailure err :: tail) =
            (QEvent.emit mid (k + 1) :: (msgTrace mid (k + 1 + 1) tail).1,
              (msgTrace mid (k + 1 + 1) tail).2) := by
          simp [msgTrace, hrc]
        rw [e1]
        simpa [firstAttemptEmits, List.filterMap_cons, firstAttemptPick]
          using ih (k + 1)
      · have e1 : msgTrace mid (k + 1) (AttemptOutcome.ackFailure err :: tail) =
            ([QEvent.emit mid (k + 1), QEvent.settled mid false], true) := by
          simp [msgTrace, hrc]
        rw [e1]
        rfl
    | timeout =>
      by_cases hrc : k + 1 + 1 ≤ 3
      · have e1 : msgTrace mid (k + 1) (AttemptOutcome.timeout :: tail) =
            (QEvent.emit mid (k + 1) :: (msgTrace mid (k + 1 + 1) tail).1,
              (msgTrace mid (k + 1 + 1) tail).2) := by
          simp [msgTrace, hrc]
        rw [e1]
        simpa [firstAttemptEmits, List.filterMap_cons, firstAttemptPick]
          using ih (k + 1)
      · have e1 : msgTrace mid (k + 1) (AttemptOutcome.timeout :: tail) =
            ([QEvent.emit mid (k + 1), QEvent.settled mid false], true) := by
          simp [msgTrace, hrc]
        rw [e1]
        rfl

lemma firstAttemptEmits_msgTrace_zero (mid : String) (outs : List AttemptOutcome) :
    firstAttemptEmits (msgTrace mid 0 outs).1 = [mid] := by
  cases outs with
  | nil => rfl
  | cons o tail =>
    cases o with
    | ackSuccess sm => rfl
    | ackSuccessNoMessage => rfl
    | ackFailure err =>
      have e1 : msgTrace mid 0 (AttemptOutcome.ackFailure err :: tail) =
          (QEvent.emit mid 0 :: (msgTrace mid 1 tail).1, (msgTrace mid 1 tail).2) := by
        simp [msgTrace]
      rw [e1]
      simpa [firstAttemptEmits, List.filterMap_cons, firstAttemptPick]
        using firstAttemptEmits_msgTrace_succ mid tail 0
    | timeout =>
      have e1 : msgTrace mid 0 (AttemptOutcome.timeout :: tail) =
          (QEvent.emit mid 0 :: (msgTrace mid 1 tail).1, (msgTrace mid 1 tail).2) := by
        simp [msgTrace]
      rw [e1]
      simpa [firstAttemptEmits, List.filterMap_cons, firstAttemptPick]
        using firstAttemptEmits_msgTrace_succ mid tail 0

lemma firstAttemptEmits_processTrace :
    ∀ q : List (String × List AttemptOutcome),
      q.all (fun e => (msgTrace e.1 0 e.2).2) = true →
      firstAttemptEmits (processMessageQueueTrace q) = q.map Prod.fst
  | [], _ => rfl
  | (mid, outs) :: rest, h => by
    simp only [List.all_cons, Bool.and_eq_true] at h
    simp only [processMessageQueueTrace, h.1, if_true]
    have happ : firstAttemptEmits ((msgTrace mid 0 outs).1 ++ processMessageQueueTrace rest) =
        firstAttemptEmits (msgTrace mid 0 outs).1 ++
          firstAttemptEmits (processMessageQueueTrace rest) := by
      simp [firstAttemptEmits, List.filterMap_append]
    rw [happ, firstAttemptEmits_msgTrace_zero,
      firstAttemptEmits_processTrace rest h.2]
    rfl

/-- C1: for every queue of sends accepted while connected, each with a
settling delivery schedule, the wire trace produced by the queue processor
first-emits the messages in exactly the order of the send calls, and at
most one message is ever in flight: no message is emitted while another is
emitted but unsettled, and no settlement arrives for a message not in
flight. -/
theorem c1_fifo_one_in_flight (q : List (String × List AttemptOutcome))
    (h : q.all (fun e => (msgTrace e.1 0 e.2).2) = true) :
    firstAttemptEmits (processMessageQueueTrace q) = q.map Prod.fst ∧
    chkOneInFlight none (processMessageQueueTrace q) = true :=
  ⟨firstAttemptEmits_processTrace q h, chk_processTrace q⟩

/-- C1 witness: three sends, the second settling after a timeout retry and
the third after an explicit-failure retry. -/
theorem c1_fifo_one_in_flight_witness :
    firstAttemptEmits (processMessageQueueTrace
        [("a", [AttemptOutcome.ackSuccessNoMessage]),
          ("b", [AttemptOutcome.timeout, AttemptOutcome.ackSuccessNoMessage]),
          ("c", [AttemptOutcome.ackFailure none, AttemptOutcome.ackSuccessNoMessage])]) =
      ["a", "b", "c"] ∧
    chkOneInFlight none (processMessageQueueTrace
        [("a", [AttemptOutcome.ackSuccessNoMessage]),
          ("b", [AttemptOutcome.timeout, AttemptOutcome.ackSuccessNoMessage]),
          ("c", [AttemptOutcome.ackFailure none, AttemptOutcome.ackSuccessNoMessage])]) =
      true :=
  c1_fifo_one_in_flight
    [("a", [AttemptOutcome.ackSuccessNoMessage]),
      ("b", [AttemptOutcome.timeout, AttemptOutcome.ackSuccessNoMessage]),
      ("c", [AttemptOutcome.ackFailure none, AttemptOutcome.ackSuccessNoMessage])]
    (by decide)

end SpeicherChat
